import Mathlib

/-!
# GadgetBackendNodejs: credential lifecycle and token authentication

A shallow embedding of `src/models/userModel.js`, `src/services/userService.js`,
`src/controllers/userController.js`, `src/middlewares/authMiddleware.js` and
`src/utils/email.js`.

* The module-level array `users` becomes an explicit store threaded through every
  operation.
* `async` functions run to completion in one call; a rejected promise or a `throw`
  is `Except.error`.
* The third-party packages (`bcrypt`, `jsonwebtoken`, `nodemailer`), the DTO
  validators of `../dtos/userDTO` and the values of `config` are not part of the
  sources: they are parameters, collected in `Env`.  The salt `bcrypt.hash` draws
  and the clock `jsonwebtoken` reads are explicit arguments.
-/

namespace Gadget

/-! ## Values -/

/-- A JavaScript primitive held in a property (numbers restricted to integers). -/
inductive JSVal where
  | undefined
  | null
  | bool (b : Bool)
  | num (n : Int)
  | str (s : String)
  deriving DecidableEq, Repr

/-- A plain object: own properties in insertion order. -/
abbrev Obj := List (String × JSVal)

/-- Property read `o[k]`: `undefined` when `k` is not an own property. -/
def getProp (o : Obj) (k : String) : JSVal :=
  (o.lookup k).getD JSVal.undefined

/-- What `JSON.parse (JSON.stringify o)` keeps of a flat object: the properties
whose value is not `undefined`. -/
def jsonRoundTrip (o : Obj) : Obj :=
  o.filter (fun kv => decide (kv.2 ≠ JSVal.undefined))

/-- A thrown or rejected error object: its `name` and `message`. -/
structure JSError where
  name : String
  message : String
  deriving DecidableEq, Repr

/-- The object built by `new Error(message)`. -/
def mkError (message : String) : JSError :=
  { name := "Error", message := message }

/-- The object a DTO validator returns and the record `createUser` stores: the
`email` and `password` properties, and every other own property in `extra`. -/
structure UserData where
  email : String
  password : String
  extra : Obj
  deriving DecidableEq, Repr

/-- Property read `user[k]` on a `UserData` object. -/
def UserData.get (u : UserData) (k : String) : JSVal :=
  if k = "email" then JSVal.str u.email
  else if k = "password" then JSVal.str u.password
  else getProp u.extra k

/-- The own properties of a `UserData` object with their values. -/
def UserData.fields (u : UserData) : Obj :=
  ("email", JSVal.str u.email) :: ("password", JSVal.str u.password) ::
    u.extra.filter (fun kv => decide (kv.1 ≠ "email" ∧ kv.1 ≠ "password"))

/-! ## `src/models/userModel.js` -/

/-- The module-level array `users`. -/
abbrev Users := List UserData

/-- `getUserModel(query)`: `users.find(user => user.email === query.email)`. -/
def getUserModel (users : Users) (email : String) : Option UserData :=
  users.find? (fun user => decide (user.email = email))

/-- `createUser(userData)`: `users.push(userData); return userData`. -/
def createUser (users : Users) (userData : UserData) : UserData × Users :=
  (userData, users ++ [userData])

/-! ## Collaborators that are not part of the sources -/

/-- The two functions of the `bcrypt` package the service calls.  `hash data rounds
salt` is `bcrypt.hash(data, rounds)` with the salt it draws made explicit. -/
structure BcryptLib where
  hash : String → Nat → String → String
  compare : String → String → Bool

/-- The two functions of the `jsonwebtoken` package.  `sign payload secret ttl now`
is `jwt.sign(payload, secret, { expiresIn })` with `expiresIn` in seconds, called
when the clock reads `now` seconds: the token, or the error it throws (as it does
for an empty secret); `verify token secret now` is the result `jwt.verify` hands to
its callback (`Except.error err` or `Except.ok decoded`). -/
structure JwtLib where
  sign : Obj → String → Nat → Nat → Except JSError String
  verify : String → String → Nat → Except JSError Obj

/-- Everything `userService.js` imports from outside the sources.  `Body` is the
type of `req.body`. -/
structure Env (Body : Type) where
  validateRegistrationDTO : Body → Except JSError UserData
  validateLoginDTO : Body → Except JSError UserData
  bcrypt : BcryptLib
  jwt : JwtLib
  JWT_SECRET : String

/-! ## `src/services/userService.js` -/

/-- `registerUser(userData)`, returning the outcome and the store afterwards.  A
record that `getUserModel` found is an object, so `if (existingUser)` holds exactly
when one was found. -/
def registerUser {Body : Type} (env : Env Body) (users : Users) (userData : Body)
    (salt : String) : Except JSError UserData × Users :=
  match env.validateRegistrationDTO userData with
  | .error e => (.error e, users)
  | .ok validatedData =>
    match getUserModel users validatedData.email with
    | some _ => (.error (mkError "User already exists"), users)
    | none =>
      let hashedPassword := env.bcrypt.hash validatedData.password 10 salt
      let (newUser, users1) := createUser users { validatedData with password := hashedPassword }
      (.ok newUser, users1)

/-- `loginUser(loginData)`, returning the outcome and the store afterwards.
`'1h'` is 3600 seconds; an error thrown by `jwt.sign` rejects the call. -/
def loginUser {Body : Type} (env : Env Body) (users : Users) (loginData : Body)
    (now : Nat) : Except JSError String × Users :=
  match env.validateLoginDTO loginData with
  | .error e => (.error e, users)
  | .ok validatedData =>
    match getUserModel users validatedData.email with
    | none => (.error (mkError "Invalid credentials"), users)
    | some user =>
      if env.bcrypt.compare validatedData.password user.password then
        match env.jwt.sign [("userId", user.get "_id")] env.JWT_SECRET 3600 now with
        | .error e => (.error e, users)
        | .ok token => (.ok token, users)
      else
        (.error (mkError "Invalid credentials"), users)

/-! ## `src/utils/email.js` -/

/-- The `mailOptions` object handed to `transporter.sendMail`. -/
structure MailOptions where
  sender : String
  recipient : String
  subject : String
  html : String
  deriving DecidableEq, Repr

/-- The `nodemailer` transporter and the configured sender: `sendMail` is the
settled promise of `transporter.sendMail` (`Except.error` when it rejects). -/
structure Mailer where
  EMAIL_USER : String
  sendMail : MailOptions → Except JSError Unit

/-- `sendWelcomeEmail(email)`. -/
def sendWelcomeEmail (mailer : Mailer) (email : String) : Except JSError Unit :=
  mailer.sendMail
    { sender := mailer.EMAIL_USER
      recipient := email
      subject := "Welcome to Our Service"
      html := "<h1>Welcome to Our Service!</h1><p>Thank you for registering with us.</p>" }

/-! ## `src/controllers/userController.js` -/

/-- The JSON body a handler passes to `res.json`; a property that is not set is
`none`. -/
structure Reply where
  success : Bool
  message : Option String
  data : Option UserData
  token : Option String
  deriving DecidableEq, Repr

/-- What a controller did with `res` and `next`: it sent one response, or it
called `next(error)`. -/
inductive Handled where
  | responded (status : Nat) (body : Reply)
  | passedToNext (error : JSError)
  deriving DecidableEq, Repr

/-- `exports.register`, with `req.body` as argument; returns what was done and
the store afterwards. -/
def register {Body : Type} (env : Env Body) (mailer : Mailer) (users : Users)
    (body : Body) (salt : String) : Handled × Users :=
  match registerUser env users body salt with
  | (.error error, users1) => (.passedToNext error, users1)
  | (.ok user, users1) =>
    match sendWelcomeEmail mailer user.email with
    | .error error => (.passedToNext error, users1)
    | .ok _ =>
      (.responded 201
        { success := true, message := some "Registration successful",
          data := some user, token := none }, users1)

/-- `exports.login`, with `req.body` as argument. -/
def login {Body : Type} (env : Env Body) (users : Users) (body : Body)
    (now : Nat) : Handled × Users :=
  match loginUser env users body now with
  | (.error error, users1) => (.passedToNext error, users1)
  | (.ok token, users1) =>
    (.responded 200
      { success := true, message := none, data := none, token := some token }, users1)

/-! ## `src/middlewares/authMiddleware.js` -/

/-- `s.split(' ')`: the pieces of `s` between single spaces. -/
def jsSplit (s : String) : List String :=
  (s.data.splitOn ' ').map String.mk

/-- `req.headers['authorization']?.split(' ')[1]`; `none` is `undefined`. -/
def extractToken (authorization : Option String) : Option String :=
  authorization.bind (fun header => (jsSplit header)[1]?)

/-- Everything `authenticateJWT` did: the response it sent (if any), how often it
called `jwt.verify`, the value it stored in `req.user` (if any) and how often it
called `next`. -/
structure AuthOutcome where
  response : Option (Nat × Reply)
  verifyCalls : Nat
  user : Option Obj
  nextCalls : Nat
  deriving DecidableEq, Repr

/-- `exports.authenticateJWT`, with the `authorization` header as argument; `!token`
holds for `undefined` and for the empty string. -/
def authenticateJWT (jwt : JwtLib) (JWT_SECRET : String)
    (authorization : Option String) (now : Nat) : AuthOutcome :=
  match extractToken authorization with
  | none =>
    { response := some (401, { success := false, message := some "Token required",
                               data := none, token := none }),
      verifyCalls := 0, user := none, nextCalls := 0 }
  | some token =>
    if token = "" then
      { response := some (401, { success := false, message := some "Token required",
                                 data := none, token := none }),
        verifyCalls := 0, user := none, nextCalls := 0 }
    else
      match jwt.verify token JWT_SECRET now with
      | .error _ =>
        { response := some (403, { success := false, message := some "Token is invalid",
                                   data := none, token := none }),
          verifyCalls := 1, user := none, nextCalls := 0 }
      | .ok user =>
        { response := none, verifyCalls := 1, user := some user, nextCalls := 1 }

/-! ## `registerUser` between its `await`s -/

/-- Where a call of `registerUser` stands: not started; suspended at
`await getUserModel` with the record it found; suspended at `await bcrypt.hash`
with the hash; or settled. -/
inductive RegTask (Body : Type) where
  | start (userData : Body) (salt : String)
  | checked (validatedData : UserData) (existingUser : Option UserData) (salt : String)
  | hashed (validatedData : UserData) (hashedPassword : String)
  | settled (result : Except JSError UserData)

/-- One turn of a `registerUser` call: the code up to `await getUserModel`, where
the store is read; the code up to `await bcrypt.hash`; the call of `createUser`,
which pushes the record, and the `return` that follows it. -/
def RegTask.step {Body : Type} (env : Env Body) (users : Users) :
    RegTask Body → RegTask Body × Users
  | .start userData salt =>
    match env.validateRegistrationDTO userData with
    | .error e => (.settled (.error e), users)
    | .ok validatedData =>
      (.checked validatedData (getUserModel users validatedData.email) salt, users)
  | .checked validatedData existingUser salt =>
    match existingUser with
    | some _ => (.settled (.error (mkError "User already exists")), users)
    | none => (.hashed validatedData (env.bcrypt.hash validatedData.password 10 salt), users)
  | .hashed validatedData hashedPassword =>
    let (newUser, users1) := createUser users { validatedData with password := hashedPassword }
    (.settled (.ok newUser), users1)
  | .settled result => (.settled result, users)

/-- Two calls of `registerUser` on one store, run turn by turn: `true` in the
schedule gives the next turn to the first call, `false` to the second. -/
def runPair {Body : Type} (env : Env Body) :
    List Bool → RegTask Body × RegTask Body × Users → RegTask Body × RegTask Body × Users
  | [], state => state
  | true :: schedule, (a, b, users) =>
    let (a1, users1) := a.step env users
    runPair env schedule (a1, b, users1)
  | false :: schedule, (a, b, users) =>
    let (b1, users1) := b.step env users
    runPair env schedule (a, b1, users1)

/-- The result of a settled call. -/
def RegTask.result {Body : Type} : RegTask Body → Option (Except JSError UserData)
  | .settled result => some result
  | _ => none

/-- How many records of the store carry `email`. -/
def countEmail (users : Users) (email : String) : Nat :=
  users.countP (fun user => decide (user.email = email))

/-- The calls a client makes one after another. -/
inductive Call (Body : Type) where
  | register (userData : Body) (salt : String)
  | login (loginData : Body) (now : Nat)

/-- The store after one call has run to completion. -/
def Call.run {Body : Type} (env : Env Body) (users : Users) : Call Body → Users
  | .register userData salt => (registerUser env users userData salt).2
  | .login loginData now => (loginUser env users loginData now).2

/-- The store after a sequence of calls, each run to completion before the next. -/
def runCalls {Body : Type} (env : Env Body) (users : Users) (calls : List (Call Body)) : Users :=
  calls.foldl (Call.run env) users

/-- The object `jwt.verify` decodes from a token that `jwt.sign` made of `payload`
at time `iat` with expiry `exp`: the payload as JSON keeps it, then `iat` and
`exp`. -/
def decodedClaims (payload : Obj) (iat exp : Nat) : Obj :=
  jsonRoundTrip payload ++ [("iat", JSVal.num iat), ("exp", JSVal.num exp)]

/-- The outcome of `authenticateJWT` when it answers 401. -/
def unauthorized : AuthOutcome :=
  { response := some (401, { success := false, message := some "Token required",
                             data := none, token := none }),
    verifyCalls := 0, user := none, nextCalls := 0 }

/-- The outcome of `authenticateJWT` when it answers 403. -/
def forbidden : AuthOutcome :=
  { response := some (403, { success := false, message := some "Token is invalid",
                             data := none, token := none }),
    verifyCalls := 1, user := none, nextCalls := 0 }

/-- The outcome of `authenticateJWT` when it lets the request through with
`req.user = claims`. -/
def admitted (claims : Obj) : AuthOutcome :=
  { response := none, verifyCalls := 1, user := some claims, nextCalls := 1 }

/-! ## Sample collaborators

Concrete stand-ins for the packages and validators that are not part of the
sources.  They instantiate the hypotheses the theorems make about the
collaborators and give the concrete inputs of the counterexamples. -/

namespace Sample

/-- A field-presence validator on flat JSON bodies: `email` and `password` must be
strings; the body is returned as it is, its other properties included. -/
def validateDTO (body : Obj) : Except JSError UserData :=
  match getProp body "email", getProp body "password" with
  | .str email, .str password =>
    .ok { email := email, password := password,
          extra := body.filter (fun kv => decide (kv.1 ≠ "email" ∧ kv.1 ≠ "password")) }
  | _, _ => .error (mkError "Validation failed")

/-- A salted toy hasher: the hash is the salt and the data behind a `$`. -/
def bcrypt : BcryptLib where
  hash data _rounds salt := "$" ++ salt ++ "$" ++ data
  compare data encrypted := ("$" ++ data).data.isSuffixOf encrypted.data

/-- The error `jsonwebtoken` reports for a token past its expiry. -/
def tokenExpiredError : JSError :=
  { name := "TokenExpiredError", message := "jwt expired" }

/-- The error `jsonwebtoken` reports for a token that never was valid. -/
def jsonWebTokenError : JSError :=
  { name := "JsonWebTokenError", message := "invalid token" }

instance : Encodable String :=
  Encodable.ofLeftInjection (fun s => s.data.map Char.toNat)
    (fun codes => some (String.mk (codes.map Char.ofNat)))
    (fun s => by simp [List.map_map, Function.comp_def])

/-- A `JSVal` as an element of a sum type. -/
def jsValCode : JSVal → Unit ⊕ Unit ⊕ Bool ⊕ Int ⊕ String
  | .undefined => .inl ()
  | .null => .inr (.inl ())
  | .bool b => .inr (.inr (.inl b))
  | .num n => .inr (.inr (.inr (.inl n)))
  | .str s => .inr (.inr (.inr (.inr s)))

/-- The inverse of `jsValCode`. -/
def jsValOfCode : Unit ⊕ Unit ⊕ Bool ⊕ Int ⊕ String → JSVal
  | .inl _ => .undefined
  | .inr (.inl _) => .null
  | .inr (.inr (.inl b)) => .bool b
  | .inr (.inr (.inr (.inl n))) => .num n
  | .inr (.inr (.inr (.inr s))) => .str s

instance : Encodable JSVal :=
  Encodable.ofLeftInjection jsValCode (fun c => some (jsValOfCode c))
    (fun v => by cases v <;> rfl)

/-- The token of the toy scheme: a run of `a`s whose length encodes the payload,
the signing key, the issue time and the expiry. -/
def tokenFor (payload : Obj) (secret : String) (ttl now : Nat) : String :=
  String.mk (List.replicate (Encodable.encode (payload, secret, now, now + ttl)) 'a')

/-- A toy token scheme.  `sign` throws on an empty secret and makes `tokenFor`
otherwise; `verify` rejects a string that is no such token or was made with another
key as never valid, and one whose expiry is not after the clock as expired. -/
def jwt : JwtLib where
  sign payload secret ttl now :=
    if secret = "" then .error (mkError "secretOrPrivateKey must have a value")
    else .ok (tokenFor payload secret ttl now)
  verify token secret now :=
    if token.data.all (fun c => c == 'a') then
      match (Encodable.decode token.data.length : Option (Obj × String × Nat × Nat)) with
      | some (payload, key, iat, exp) =>
        if key = secret then
          if now < exp then .ok (decodedClaims payload iat exp) else .error tokenExpiredError
        else .error jsonWebTokenError
      | none => .error jsonWebTokenError
    else .error jsonWebTokenError

/-- The service wired to the sample collaborators. -/
def env : Env Obj where
  validateRegistrationDTO := validateDTO
  validateLoginDTO := validateDTO
  bcrypt := bcrypt
  jwt := jwt
  JWT_SECRET := "s3cret"

/-- A mailer whose `sendMail` always rejects. -/
def failingMailer : Mailer where
  EMAIL_USER := "noreply@gadget.test"
  sendMail _ := .error (mkError "SMTP connection refused")

/-- A mailer whose `sendMail` always resolves. -/
def workingMailer : Mailer where
  EMAIL_USER := "noreply@gadget.test"
  sendMail _ := .ok ()

end Sample

/-! ## Sample inputs -/

namespace Sample

/-- The request body `{ email: "a@x.com", password: "secret123" }`. -/
def alice : Obj := [("email", JSVal.str "a@x.com"), ("password", JSVal.str "secret123")]

/-- The request body `{ email: "a@x.com", password: "wrong" }`. -/
def aliceWrong : Obj := [("email", JSVal.str "a@x.com"), ("password", JSVal.str "wrong")]

/-- The request body `{ email: "nobody@x.com", password: "x" }`. -/
def nobody : Obj := [("email", JSVal.str "nobody@x.com"), ("password", JSVal.str "x")]

/-- The request body `{ email: "b@x.com", password: "hunter2" }`. -/
def bob : Obj := [("email", JSVal.str "b@x.com"), ("password", JSVal.str "hunter2")]

/-- The record `registerUser` stores for `bob` when the salt is `"s2"`. -/
def bobRecord : UserData := { email := "b@x.com", password := "$s2$hunter2", extra := [] }

/-- A token issued at time 100 with a time to live of 0 seconds. -/
def staleToken : String := tokenFor [("userId", JSVal.num 7)] "s3cret" 0 100

/-- What `validateDTO` returns for `alice`. -/
def aliceData : UserData := { email := "a@x.com", password := "secret123", extra := [] }

/-- The record `registerUser` stores for `alice` when the salt is `"s1"`. -/
def aliceRecord : UserData := { email := "a@x.com", password := "$s1$secret123", extra := [] }

/-- The record `registerUser` stores for `alice` when the salt is `"s2"`. -/
def aliceRecord2 : UserData := { email := "a@x.com", password := "$s2$secret123", extra := [] }

end Sample

/-! ## Facts about the collaborators' stand-ins -/

theorem Sample.bcrypt_compare_hash (data salt : String) (rounds : Nat) :
    Sample.bcrypt.compare data (Sample.bcrypt.hash data rounds salt) = true := by
  simp only [Sample.bcrypt, List.isSuffixOf_iff_suffix, String.data_append]
  exact ⟨("$" ++ salt).data, by simp [String.data_append]⟩

theorem Sample.bcrypt_hash_ne (data salt : String) (rounds : Nat) :
    Sample.bcrypt.hash data rounds salt ≠ data := by
  intro h
  have hlen := congrArg String.length h
  simp only [Sample.bcrypt, String.length_append] at hlen
  have h1 : "$".length = 1 := rfl
  omega

theorem Sample.tokenFor_data (payload : Obj) (secret : String) (ttl now : Nat) :
    (Sample.tokenFor payload secret ttl now).data =
      List.replicate (Encodable.encode (payload, secret, now, now + ttl)) 'a' := rfl

theorem Sample.jwt_verify_tokenFor (payload : Obj) (secret : String) (ttl now later : Nat) :
    Sample.jwt.verify (Sample.tokenFor payload secret ttl now) secret later =
      if later < now + ttl then .ok (decodedClaims payload now (now + ttl))
      else .error Sample.tokenExpiredError := by
  have hdata := Sample.tokenFor_data payload secret ttl now
  simp only [Sample.jwt]
  simp [hdata, Encodable.encodek]

theorem Sample.staleToken_no_space : ' ' ∉ Sample.staleToken.data := by
  intro hmem
  rw [Sample.staleToken, Sample.tokenFor_data] at hmem
  have := List.eq_of_mem_replicate hmem
  exact absurd this (by decide)

theorem Sample.staleToken_ne_empty : Sample.staleToken ≠ "" := by
  intro h
  have hdata := congrArg String.data h
  rw [Sample.staleToken, Sample.tokenFor_data] at hdata
  have hlen := congrArg List.length hdata
  simp only [Encodable.encode, Encodable.encodeList, List.length_replicate] at hlen
  have hle := Nat.left_le_pair
    (Nat.pair (Nat.pair (Encodable.encode "userId") (Encodable.encode (JSVal.num 7))) 0 + 1)
    (Nat.pair (Encodable.encode "s3cret") (Nat.pair 100 (100 + 0)))
  simp_all

theorem Sample.verify_staleToken :
    Sample.jwt.verify Sample.staleToken "s3cret" 100 = .error Sample.tokenExpiredError := by
  rw [Sample.staleToken, Sample.jwt_verify_tokenFor, if_neg (by decide)]

theorem Sample.validate_alice :
    Sample.env.validateRegistrationDTO Sample.alice = .ok Sample.aliceData := rfl

/-! ## The store lookup -/

theorem getUserModel_eq_none_iff (users : Users) (email : String) :
    getUserModel users email = none ↔ ∀ user ∈ users, user.email ≠ email := by
  simp [getUserModel, List.find?_eq_none]

theorem getUserModel_some (users : Users) (email : String) (user : UserData)
    (h : getUserModel users email = some user) : user ∈ users ∧ user.email = email := by
  unfold getUserModel at h
  exact ⟨List.mem_of_find?_eq_some h, by simpa using List.find?_some h⟩

theorem getUserModel_isSome_of_mem (users : Users) (user : UserData) (h : user ∈ users) :
    ∃ found, getUserModel users user.email = some found := by
  cases hfind : getUserModel users user.email with
  | some found => exact ⟨found, rfl⟩
  | none => exact absurd rfl ((getUserModel_eq_none_iff users user.email).1 hfind user h)

theorem getUserModel_push_fresh (users : Users) (record : UserData)
    (h : getUserModel users record.email = none) :
    getUserModel (users ++ [record]) record.email = some record := by
  unfold getUserModel at h ⊢
  simp [List.find?_append, h]

theorem countEmail_of_fresh (users : Users) (email : String)
    (h : getUserModel users email = none) : countEmail users email = 0 := by
  rw [getUserModel_eq_none_iff] at h
  simp only [countEmail, List.countP_eq_zero]
  intro user hmem
  simpa using h user hmem

/-! ## `registerUser` and `loginUser`, case by case -/

theorem registerUser_invalid {Body : Type} (env : Env Body) (users : Users) (userData : Body)
    (salt : String) (e : JSError) (hvalid : env.validateRegistrationDTO userData = .error e) :
    registerUser env users userData salt = (.error e, users) := by
  simp [registerUser, hvalid]

theorem registerUser_existing {Body : Type} (env : Env Body) (users : Users) (userData : Body)
    (salt : String) (validatedData existingUser : UserData)
    (hvalid : env.validateRegistrationDTO userData = .ok validatedData)
    (hfound : getUserModel users validatedData.email = some existingUser) :
    registerUser env users userData salt = (.error (mkError "User already exists"), users) := by
  simp [registerUser, hvalid, hfound]

theorem registerUser_fresh {Body : Type} (env : Env Body) (users : Users) (userData : Body)
    (salt : String) (validatedData : UserData)
    (hvalid : env.validateRegistrationDTO userData = .ok validatedData)
    (hfresh : getUserModel users validatedData.email = none) :
    registerUser env users userData salt =
      (.ok { validatedData with
              password := env.bcrypt.hash validatedData.password 10 salt },
       users ++ [{ validatedData with
                    password := env.bcrypt.hash validatedData.password 10 salt }]) := by
  simp [registerUser, hvalid, hfresh, createUser]

theorem loginUser_store {Body : Type} (env : Env Body) (users : Users) (loginData : Body)
    (now : Nat) : (loginUser env users loginData now).2 = users := by
  unfold loginUser
  split
  · rfl
  · split
    · rfl
    · split
      · split <;> rfl
      · rfl

theorem registerUser_keeps_unique {Body : Type} (env : Env Body) (users : Users)
    (userData : Body) (salt : String)
    (h : users.Pairwise (fun a b => a.email ≠ b.email)) :
    (registerUser env users userData salt).2.Pairwise (fun a b => a.email ≠ b.email) := by
  cases hvalid : env.validateRegistrationDTO userData with
  | error e => rw [registerUser_invalid env users userData salt e hvalid]; exact h
  | ok validatedData =>
    cases hfind : getUserModel users validatedData.email with
    | some existingUser =>
      rw [registerUser_existing env users userData salt validatedData existingUser hvalid hfind]
      exact h
    | none =>
      rw [registerUser_fresh env users userData salt validatedData hvalid hfind]
      rw [List.pairwise_append]
      refine ⟨h, List.pairwise_singleton _ _, ?_⟩
      intro a ha b hb
      rw [List.mem_singleton] at hb
      subst hb
      exact (getUserModel_eq_none_iff users validatedData.email).1 hfind a ha

theorem runCalls_keeps_unique {Body : Type} (env : Env Body) (calls : List (Call Body)) :
    ∀ users : Users, users.Pairwise (fun a b => a.email ≠ b.email) →
      (runCalls env users calls).Pairwise (fun a b => a.email ≠ b.email) := by
  induction calls with
  | nil => intro users h; exact h
  | cons call rest ih =>
    intro users h
    show (runCalls env (Call.run env users call) rest).Pairwise _
    apply ih
    cases call with
    | register userData salt => exact registerUser_keeps_unique env users userData salt h
    | login loginData now =>
      show (loginUser env users loginData now).2.Pairwise _
      rw [loginUser_store]; exact h

/-! ## The middleware on a rejected token -/

theorem authenticateJWT_of_verify_error (jwt : JwtLib) (secret : String)
    (authorization : Option String) (now : Nat) (token : String) (e : JSError)
    (hx : extractToken authorization = some token) (hne : token ≠ "")
    (hv : jwt.verify token secret now = .error e) :
    authenticateJWT jwt secret authorization now = forbidden := by
  simp [authenticateJWT, hx, hne, hv, forbidden]

theorem extractToken_bearer (token : String) (h : ' ' ∉ token.data) :
    extractToken (some ("Bearer " ++ token)) = some token := by
  have hsplit : ("Bearer " ++ token).data.splitOn ' ' = ["Bearer".data, token.data] := by
    have hdata : ("Bearer " ++ token).data = "Bearer".data ++ ' ' :: token.data := by
      simp [String.data_append]
    rw [hdata, List.splitOn, List.splitOnP_first _ _ (by decide) ' ' (by simp),
      List.splitOnP_eq_single]
    intro x hx hcontra
    have : x = ' ' := by simpa using hcontra
    exact h (this ▸ hx)
  show ((("Bearer " ++ token).data.splitOn ' ').map String.mk)[1]? = some token
  rw [hsplit]
  rfl

/-! ## Two calls of `registerUser` taking turns -/

theorem registerUser_eq_three_turns {Body : Type} (env : Env Body) (users : Users)
    (userData : Body) (salt : String) (other : RegTask Body) :
    runPair env [true, true, true] (.start userData salt, other, users) =
      (.settled (registerUser env users userData salt).1, other,
        (registerUser env users userData salt).2) := by
  cases hvalid : env.validateRegistrationDTO userData with
  | error e => simp [runPair, RegTask.step, registerUser, hvalid]
  | ok validatedData =>
    cases hfind : getUserModel users validatedData.email with
    | some existingUser => simp [runPair, RegTask.step, registerUser, hvalid, hfind]
    | none => simp [runPair, RegTask.step, registerUser, hvalid, hfind, createUser]

theorem schedule_length_six (schedule : List Bool) (hA : schedule.count true = 3)
    (hB : schedule.count false = 3) : schedule.length = 6 := by
  have := List.count_true_add_count_false schedule
  omega

/-! ## The claims -/

/-- C1 does not hold of the code.  `alice` and `bob` register one after the other
on the empty store and log in at the same second.  Both registrations and both
logins succeed, but the stored records have no `_id`, the two logins return the
very same token, and `jwt.verify` of it with the service's secret yields only
`iat` and `exp`: the claims carry no `userId` and do not tell the users apart. -/
theorem tokens_carry_no_identity :
    registerUser Sample.env [] Sample.alice "s1" =
      (.ok Sample.aliceRecord, [Sample.aliceRecord]) ∧
    registerUser Sample.env [Sample.aliceRecord] Sample.bob "s2" =
      (.ok Sample.bobRecord, [Sample.aliceRecord, Sample.bobRecord]) ∧
    Sample.aliceRecord.get "_id" = JSVal.undefined ∧
    Sample.bobRecord.get "_id" = JSVal.undefined ∧
    loginUser Sample.env [Sample.aliceRecord, Sample.bobRecord] Sample.alice 1000 =
      (.ok (Sample.tokenFor [("userId", JSVal.undefined)] "s3cret" 3600 1000),
        [Sample.aliceRecord, Sample.bobRecord]) ∧
    loginUser Sample.env [Sample.aliceRecord, Sample.bobRecord] Sample.bob 1000 =
      (.ok (Sample.tokenFor [("userId", JSVal.undefined)] "s3cret" 3600 1000),
        [Sample.aliceRecord, Sample.bobRecord]) ∧
    Sample.jwt.verify (Sample.tokenFor [("userId", JSVal.undefined)] "s3cret" 3600 1000)
        "s3cret" 1000 =
      .ok [("iat", JSVal.num 1000), ("exp", JSVal.num 4600)] ∧
    getProp [("iat", JSVal.num 1000), ("exp", JSVal.num 4600)] "userId" = JSVal.undefined := by
  refine ⟨rfl, rfl, rfl, rfl, rfl, rfl, ?_, rfl⟩
  rw [Sample.jwt_verify_tokenFor, if_pos (by decide)]
  rfl

/-- C2: when the validated email of a registration equals the email of a stored
record, `registerUser` fails with `Error('User already exists')` and the store is
what it was; and whatever the store, a second `registerUser` with the same input
right after a first one fails with that error and leaves the store as the first
call left it. -/
theorem registerUser_rejects_stored_email {Body : Type} (env : Env Body) (users : Users)
    (userData : Body) (validatedData : UserData) (salt salt2 : String)
    (hvalid : env.validateRegistrationDTO userData = .ok validatedData) :
    ((∃ existing ∈ users, existing.email = validatedData.email) →
      registerUser env users userData salt =
        (.error (mkError "User already exists"), users)) ∧
    registerUser env (registerUser env users userData salt).2 userData salt2 =
      (.error (mkError "User already exists"), (registerUser env users userData salt).2) := by
  have hdup : ∀ store : Users, (∃ existing ∈ store, existing.email = validatedData.email) →
      ∀ s : String, registerUser env store userData s =
        (.error (mkError "User already exists"), store) := by
    intro store ⟨existing, hmem, hemail⟩ s
    obtain ⟨found, hfound⟩ := getUserModel_isSome_of_mem store existing hmem
    rw [hemail] at hfound
    exact registerUser_existing env store userData s validatedData found hvalid hfound
  refine ⟨fun h => hdup users h salt, ?_⟩
  cases hfind : getUserModel users validatedData.email with
  | some existingUser =>
    rw [registerUser_existing env users userData salt validatedData existingUser hvalid hfind]
    exact hdup users ⟨existingUser, (getUserModel_some _ _ _ hfind).1,
      (getUserModel_some _ _ _ hfind).2⟩ salt2
  | none =>
    rw [registerUser_fresh env users userData salt validatedData hvalid hfind]
    exact hdup
      (users ++ [{ validatedData with
                    password := env.bcrypt.hash validatedData.password 10 salt }])
      ⟨_, List.mem_append_right _ (List.mem_singleton_self _), rfl⟩ salt2

theorem registerUser_rejects_stored_email_witness :
    registerUser Sample.env [Sample.aliceRecord] Sample.alice "s2" =
      (.error (mkError "User already exists"), [Sample.aliceRecord]) ∧
    registerUser Sample.env (registerUser Sample.env [Sample.aliceRecord] Sample.alice "s2").2
        Sample.alice "s3" =
      (.error (mkError "User already exists"),
        (registerUser Sample.env [Sample.aliceRecord] Sample.alice "s2").2) :=
  have h := registerUser_rejects_stored_email Sample.env [Sample.aliceRecord] Sample.alice
    Sample.aliceData "s2" "s3" Sample.validate_alice
  ⟨h.1 ⟨Sample.aliceRecord, List.mem_singleton_self _, rfl⟩, h.2⟩

/-- C3: for a validated login input, `loginUser` fails with the one error
`Error('Invalid credentials')` both when no stored record has the email and when
the record found does not pass `bcrypt.compare`; it returns a token only when a
record with the email is stored and the password passes `bcrypt.compare` against
the password stored in it. -/
theorem loginUser_invalid_credentials {Body : Type} (env : Env Body) (users : Users)
    (loginData : Body) (validatedData : UserData) (now : Nat)
    (hvalid : env.validateLoginDTO loginData = .ok validatedData) :
    (getUserModel users validatedData.email = none →
      loginUser env users loginData now =
        (.error (mkError "Invalid credentials"), users)) ∧
    (∀ user, getUserModel users validatedData.email = some user →
      env.bcrypt.compare validatedData.password user.password = false →
      loginUser env users loginData now =
        (.error (mkError "Invalid credentials"), users)) ∧
    (∀ token, (loginUser env users loginData now).1 = .ok token →
      ∃ user ∈ users, user.email = validatedData.email ∧
        getUserModel users validatedData.email = some user ∧
        env.bcrypt.compare validatedData.password user.password = true) := by
  refine ⟨?_, ?_, ?_⟩
  · intro hnone
    simp [loginUser, hvalid, hnone]
  · intro user hsome hwrong
    simp [loginUser, hvalid, hsome, hwrong]
  · intro token htoken
    cases hfind : getUserModel users validatedData.email with
    | none => simp [loginUser, hvalid, hfind] at htoken
    | some user =>
      cases hcmp : env.bcrypt.compare validatedData.password user.password with
      | false => simp [loginUser, hvalid, hfind, hcmp] at htoken
      | true =>
        exact ⟨user, (getUserModel_some _ _ _ hfind).1, (getUserModel_some _ _ _ hfind).2,
          rfl, hcmp⟩

theorem loginUser_invalid_credentials_witness :
    loginUser Sample.env [Sample.aliceRecord] Sample.nobody 0 =
      (.error (mkError "Invalid credentials"), [Sample.aliceRecord]) ∧
    loginUser Sample.env [Sample.aliceRecord] Sample.aliceWrong 0 =
      (.error (mkError "Invalid credentials"), [Sample.aliceRecord]) :=
  ⟨(loginUser_invalid_credentials Sample.env [Sample.aliceRecord] Sample.nobody
      { email := "nobody@x.com", password := "x", extra := [] } 0 rfl).1 rfl,
   (loginUser_invalid_credentials Sample.env [Sample.aliceRecord] Sample.aliceWrong
      { email := "a@x.com", password := "wrong", extra := [] } 0 rfl).2.1
      Sample.aliceRecord rfl rfl⟩

/-- C4, as the code has it: for every successful registration the value
`registerUser` returns is the record it stored, and the `password` property of
that value is the bcrypt hash; when the welcome email is sent, the register
controller answers 201 with that same value, hash included, as `data`. -/
theorem registerUser_returns_stored_record {Body : Type} (env : Env Body) (mailer : Mailer)
    (users users1 : Users) (userData : Body) (validatedData user : UserData) (salt : String)
    (hvalid : env.validateRegistrationDTO userData = .ok validatedData)
    (hok : registerUser env users userData salt = (.ok user, users1)) :
    users1 = users ++ [user] ∧
    user.get "password" = JSVal.str (env.bcrypt.hash validatedData.password 10 salt) ∧
    (sendWelcomeEmail mailer user.email = .ok () →
      register env mailer users userData salt =
        (.responded 201 { success := true, message := some "Registration successful",
                          data := some user, token := none }, users1)) := by
  cases hfind : getUserModel users validatedData.email with
  | some existingUser =>
    rw [registerUser_existing env users userData salt validatedData existingUser hvalid hfind]
      at hok
    simp at hok
  | none =>
    have hok1 := hok
    rw [registerUser_fresh env users userData salt validatedData hvalid hfind] at hok1
    simp only [Prod.mk.injEq, Except.ok.injEq] at hok1
    obtain ⟨huser, husers⟩ := hok1
    subst huser
    refine ⟨husers.symm, by simp [UserData.get], ?_⟩
    intro hsent
    simp only [register, hok]
    simp only [] at hsent
    simp [hsent]

theorem registerUser_returns_stored_record_witness :
    [Sample.aliceRecord] = [] ++ [Sample.aliceRecord] ∧
    Sample.aliceRecord.get "password" =
      JSVal.str (Sample.env.bcrypt.hash Sample.aliceData.password 10 "s1") ∧
    (sendWelcomeEmail Sample.workingMailer Sample.aliceRecord.email = .ok () →
      register Sample.env Sample.workingMailer [] Sample.alice "s1" =
        (.responded 201 { success := true, message := some "Registration successful",
                          data := some Sample.aliceRecord, token := none },
         [Sample.aliceRecord])) :=
  registerUser_returns_stored_record Sample.env Sample.workingMailer [] [Sample.aliceRecord]
    Sample.alice Sample.aliceData Sample.aliceRecord "s1" rfl rfl

/-- C4 fails as stated: registering `{ email: "a@x.com", password: "secret123" }`
returns a record whose `password` property is the hash, and the register
controller sends that record as `data` of its 201 response. -/
theorem registerUser_exposes_hash :
    (registerUser Sample.env [] Sample.alice "s1").1 = .ok Sample.aliceRecord ∧
    Sample.aliceRecord.get "password" =
      JSVal.str (Sample.env.bcrypt.hash "secret123" 10 "s1") ∧
    (register Sample.env Sample.workingMailer [] Sample.alice "s1").1 =
      .responded 201 { success := true, message := some "Registration successful",
                       data := some Sample.aliceRecord, token := none } :=
  ⟨rfl, rfl, rfl⟩

/-- C5: when `registerUser` succeeds the store gains exactly one record, appended
to the records it held, which stay as they were; the record carries the validated
email; its `password` property is `bcrypt.hash` of the validated password with work
factor 10, and every other property is read from it as from the validated data.
So, the hasher's output not being its input, the `password` property does not hold
the plaintext password, and neither does any property of the stored record, as
long as the validated data does not itself repeat the password under another
name. -/
theorem registerUser_stores_hash {Body : Type} (env : Env Body) (users users1 : Users)
    (userData : Body) (validatedData record : UserData) (salt : String)
    (hvalid : env.validateRegistrationDTO userData = .ok validatedData)
    (hok : registerUser env users userData salt = (.ok record, users1)) :
    users1 = users ++ [record] ∧
    record.email = validatedData.email ∧
    record.password = env.bcrypt.hash validatedData.password 10 salt ∧
    (∀ k, k ≠ "password" → record.get k = validatedData.get k) ∧
    (env.bcrypt.hash validatedData.password 10 salt ≠ validatedData.password →
      record.get "password" ≠ JSVal.str validatedData.password ∧
      ((∀ kv ∈ validatedData.fields, kv.1 ≠ "password" →
          kv.2 ≠ JSVal.str validatedData.password) →
        ∀ kv ∈ record.fields, kv.2 ≠ JSVal.str validatedData.password)) := by
  cases hfind : getUserModel users validatedData.email with
  | some existingUser =>
    rw [registerUser_existing env users userData salt validatedData existingUser hvalid hfind]
      at hok
    simp at hok
  | none =>
    rw [registerUser_fresh env users userData salt validatedData hvalid hfind] at hok
    simp only [Prod.mk.injEq, Except.ok.injEq] at hok
    obtain ⟨hrecord, husers⟩ := hok
    subst hrecord
    refine ⟨husers.symm, rfl, rfl, ?_, ?_⟩
    · intro k hk
      simp [UserData.get, hk]
    · intro hne
      refine ⟨by simpa [UserData.get] using hne, ?_⟩
      intro hinput kv hkv
      simp only [UserData.fields, List.mem_cons] at hkv
      rcases hkv with hkv | hkv | hkv
      · subst hkv
        exact hinput _ (List.mem_cons_self _ _) (by simp)
      · subst hkv
        simpa using hne
      · have hkey : kv.1 ≠ "password" := by
          have := (List.mem_filter.1 hkv).2
          simp only [decide_eq_true_eq] at this
          exact this.2
        exact hinput kv
          (List.mem_cons_of_mem _ (List.mem_cons_of_mem _ hkv)) hkey

theorem registerUser_stores_hash_witness :
    [Sample.aliceRecord] = [] ++ [Sample.aliceRecord] ∧
    Sample.aliceRecord.email = Sample.aliceData.email ∧
    Sample.aliceRecord.password = Sample.env.bcrypt.hash Sample.aliceData.password 10 "s1" ∧
    (∀ k, k ≠ "password" → Sample.aliceRecord.get k = Sample.aliceData.get k) ∧
    Sample.aliceRecord.get "password" ≠ JSVal.str Sample.aliceData.password ∧
    ∀ kv ∈ Sample.aliceRecord.fields, kv.2 ≠ JSVal.str Sample.aliceData.password :=
  have h := registerUser_stores_hash Sample.env [] [Sample.aliceRecord] Sample.alice
    Sample.aliceData Sample.aliceRecord "s1" rfl rfl
  have hsafe := h.2.2.2.2 (Sample.bcrypt_hash_ne _ _ _)
  ⟨h.1, h.2.1, h.2.2.1, h.2.2.2.1, hsafe.1, hsafe.2 (by decide)⟩

/-- C6: `authenticateJWT` does exactly one of three things.  With no token to
extract (`undefined` or the empty string) it answers 401 'Token required' and
calls neither `jwt.verify` nor `next`; with a token that `jwt.verify` rejects it
answers 403 and does not call `next`; with a token that `jwt.verify` accepts it
sets `req.user` to the decoded claims, calls `next` once and sends no response.
So `next` runs exactly when verification of the extracted token succeeded. -/
theorem authenticateJWT_three_ways (jwt : JwtLib) (secret : String)
    (authorization : Option String) (now : Nat) :
    (((extractToken authorization = none ∨ extractToken authorization = some "") ∧
        authenticateJWT jwt secret authorization now = unauthorized) ∨
      (∃ token e, extractToken authorization = some token ∧ token ≠ "" ∧
        jwt.verify token secret now = .error e ∧
        authenticateJWT jwt secret authorization now = forbidden) ∨
      (∃ token claims, extractToken authorization = some token ∧ token ≠ "" ∧
        jwt.verify token secret now = .ok claims ∧
        authenticateJWT jwt secret authorization now = admitted claims)) ∧
    ((authenticateJWT jwt secret authorization now).nextCalls = 1 ↔
      ∃ token claims, extractToken authorization = some token ∧ token ≠ "" ∧
        jwt.verify token secret now = .ok claims) ∧
    (authenticateJWT jwt secret authorization now).nextCalls ≤ 1 := by
  cases hx : extractToken authorization with
  | none => simp [authenticateJWT, hx, unauthorized]
  | some token =>
    by_cases htok : token = ""
    · simp [authenticateJWT, hx, htok, unauthorized]
    · cases hv : jwt.verify token secret now with
      | error e => simp [authenticateJWT, hx, htok, hv, forbidden]
      | ok claims => simp [authenticateJWT, hx, htok, hv, admitted]

/-- C7, as the code has it: whatever error `jwt.verify` reports for the extracted
token, `TokenExpiredError` for a stale one or `JsonWebTokenError` for one that
never was valid, `authenticateJWT` answers 403 with the message 'Token is
invalid' and nothing else, so two requests whose tokens are rejected for
different reasons get the same outcome. -/
theorem authenticateJWT_rejections_alike (jwt : JwtLib) (secret : String)
    (header1 header2 : Option String) (now : Nat) (token1 token2 : String)
    (e1 e2 : JSError)
    (hx1 : extractToken header1 = some token1) (hne1 : token1 ≠ "")
    (hv1 : jwt.verify token1 secret now = .error e1)
    (hx2 : extractToken header2 = some token2) (hne2 : token2 ≠ "")
    (hv2 : jwt.verify token2 secret now = .error e2) :
    authenticateJWT jwt secret header1 now = forbidden ∧
    authenticateJWT jwt secret header2 now = forbidden ∧
    authenticateJWT jwt secret header1 now = authenticateJWT jwt secret header2 now := by
  have h1 := authenticateJWT_of_verify_error jwt secret header1 now token1 e1 hx1 hne1 hv1
  have h2 := authenticateJWT_of_verify_error jwt secret header2 now token2 e2 hx2 hne2 hv2
  exact ⟨h1, h2, h1.trans h2.symm⟩

theorem authenticateJWT_rejections_alike_witness :
    authenticateJWT Sample.jwt "s3cret" (some ("Bearer " ++ Sample.staleToken)) 100 = forbidden ∧
    authenticateJWT Sample.jwt "s3cret" (some "Bearer forged") 100 = forbidden ∧
    authenticateJWT Sample.jwt "s3cret" (some ("Bearer " ++ Sample.staleToken)) 100 =
      authenticateJWT Sample.jwt "s3cret" (some "Bearer forged") 100 :=
  authenticateJWT_rejections_alike Sample.jwt "s3cret" (some ("Bearer " ++ Sample.staleToken))
    (some "Bearer forged") 100 Sample.staleToken "forged" Sample.tokenExpiredError
    Sample.jsonWebTokenError (extractToken_bearer _ Sample.staleToken_no_space)
    Sample.staleToken_ne_empty Sample.verify_staleToken rfl (by decide) rfl

/-- C7 fails as stated: a token issued with a time to live of 0 is rejected by the
verifier as expired and the string `forged` as never valid, yet `authenticateJWT`
gives both requests the same outcome. -/
theorem expired_and_forged_same_outcome :
    Sample.jwt.verify Sample.staleToken "s3cret" 100 = .error Sample.tokenExpiredError ∧
    Sample.jwt.verify "forged" "s3cret" 100 = .error Sample.jsonWebTokenError ∧
    Sample.tokenExpiredError ≠ Sample.jsonWebTokenError ∧
    authenticateJWT Sample.jwt "s3cret" (some ("Bearer " ++ Sample.staleToken)) 100 =
      authenticateJWT Sample.jwt "s3cret" (some "Bearer forged") 100 := by
  refine ⟨Sample.verify_staleToken, rfl, by decide, ?_⟩
  rw [authenticateJWT_of_verify_error Sample.jwt "s3cret" _ 100 Sample.staleToken _
      (extractToken_bearer _ Sample.staleToken_no_space) Sample.staleToken_ne_empty
      Sample.verify_staleToken,
    authenticateJWT_of_verify_error Sample.jwt "s3cret" (some "Bearer forged") 100 "forged"
      Sample.jsonWebTokenError rfl (by decide) rfl]

/-- C8, as the code has it: when `registerUser` succeeds and `sendWelcomeEmail`
rejects, the register controller passes the notifier's error to `next` and sends
no response, the new record staying in the store; it answers 201 'Registration
successful' with the user when `sendWelcomeEmail` resolves. -/
theorem register_fails_with_notifier {Body : Type} (env : Env Body) (mailer : Mailer)
    (users users1 : Users) (body : Body) (user : UserData) (salt : String)
    (hok : registerUser env users body salt = (.ok user, users1)) :
    (∀ e, sendWelcomeEmail mailer user.email = .error e →
      register env mailer users body salt = (.passedToNext e, users1)) ∧
    (sendWelcomeEmail mailer user.email = .ok () →
      register env mailer users body salt =
        (.responded 201 { success := true, message := some "Registration successful",
                          data := some user, token := none }, users1)) := by
  constructor
  · intro e he
    simp only [register, hok]
    simp [he]
  · intro hsent
    simp only [register, hok]
    simp [hsent]

theorem register_fails_with_notifier_witness :
    (∀ e, sendWelcomeEmail Sample.failingMailer Sample.aliceRecord.email = .error e →
      register Sample.env Sample.failingMailer [] Sample.alice "s1" =
        (.passedToNext e, [Sample.aliceRecord])) ∧
    (sendWelcomeEmail Sample.failingMailer Sample.aliceRecord.email = .ok () →
      register Sample.env Sample.failingMailer [] Sample.alice "s1" =
        (.responded 201 { success := true, message := some "Registration successful",
                          data := some Sample.aliceRecord, token := none },
         [Sample.aliceRecord])) :=
  register_fails_with_notifier Sample.env Sample.failingMailer [] [Sample.aliceRecord]
    Sample.alice Sample.aliceRecord "s1" rfl

/-- C8 fails as stated: with a mailer that rejects, a registration that
`registerUser` completed ends in `next(error)` with the mailer's error, not in the
201 response; the record is stored all the same. -/
theorem notifier_failure_fails_register :
    registerUser Sample.env [] Sample.alice "s1" = (.ok Sample.aliceRecord, [Sample.aliceRecord]) ∧
    register Sample.env Sample.failingMailer [] Sample.alice "s1" =
      (.passedToNext (mkError "SMTP connection refused"), [Sample.aliceRecord]) :=
  ⟨rfl, rfl⟩

/-- C9: starting from the empty store, after any finite sequence of `registerUser`
and `loginUser` calls, each run to completion before the next, no two stored
records have the same email (compared as strings, case-sensitively); and
`loginUser` leaves the store as it found it. -/
theorem emails_stay_unique {Body : Type} (env : Env Body) (calls : List (Call Body)) :
    (runCalls env [] calls).Pairwise (fun a b => a.email ≠ b.email) ∧
    ∀ (users : Users) (loginData : Body) (now : Nat),
      (loginUser env users loginData now).2 = users :=
  ⟨runCalls_keeps_unique env calls [] List.Pairwise.nil, loginUser_store env⟩

/-- C10, as the code has it: two `registerUser` calls with the same email, on a
store not yet holding that email, take their three turns each (existence check,
password hashing, insert) in any order.  When one call has all its turns before
the other starts, it returns its record, the other fails with 'User already
exists' and the store ends with one record for the email.  In every other order
both existence checks come before both inserts: both calls return a record and
the store ends with two records for the email. -/
theorem registerUser_pair_outcomes {Body : Type} (env : Env Body) (users : Users)
    (userData1 userData2 : Body) (data1 data2 : UserData) (salt1 salt2 : String)
    (schedule : List Bool)
    (hvalid1 : env.validateRegistrationDTO userData1 = .ok data1)
    (hvalid2 : env.validateRegistrationDTO userData2 = .ok data2)
    (hsame : data2.email = data1.email)
    (hfresh : getUserModel users data1.email = none)
    (hturns1 : schedule.count true = 3) (hturns2 : schedule.count false = 3) :
    ((runPair env schedule (.start userData1 salt1, .start userData2 salt2, users)).1.result,
     (runPair env schedule (.start userData1 salt1, .start userData2 salt2, users)).2.1.result,
     countEmail
      (runPair env schedule (.start userData1 salt1, .start userData2 salt2, users)).2.2
      data1.email) =
      if schedule = [true, true, true, false, false, false] then
        (some (.ok { data1 with password := env.bcrypt.hash data1.password 10 salt1 }),
         some (.error (mkError "User already exists")), 1)
      else if schedule = [false, false, false, true, true, true] then
        (some (.error (mkError "User already exists")),
         some (.ok { data2 with password := env.bcrypt.hash data2.password 10 salt2 }), 1)
      else
        (some (.ok { data1 with password := env.bcrypt.hash data1.password 10 salt1 }),
         some (.ok { data2 with password := env.bcrypt.hash data2.password 10 salt2 }), 2) := by
  have hlen := schedule_length_six schedule hturns1 hturns2
  have hcount := countEmail_of_fresh users data1.email hfresh
  have hfresh2 : getUserModel users data2.email = none := by rw [hsame]; exact hfresh
  have hfound1 := getUserModel_push_fresh users
    { data1 with password := env.bcrypt.hash data1.password 10 salt1 } hfresh
  have hfound2 := getUserModel_push_fresh users
    { data2 with password := env.bcrypt.hash data2.password 10 salt2 } hfresh2
  simp only [] at hfound1 hfound2
  have hfound1' := hfound1
  rw [← hsame] at hfound1'
  have hfound2' := hfound2
  rw [hsame] at hfound2'
  unfold countEmail at hcount
  rcases schedule with _ | ⟨x1, _ | ⟨x2, _ | ⟨x3, _ | ⟨x4, _ | ⟨x5, _ | ⟨x6, _ | ⟨x7, rest⟩⟩⟩⟩⟩⟩⟩ <;>
    simp only [List.length_cons, List.length_nil] at hlen <;> try omega
  cases x1 <;> cases x2 <;> cases x3 <;> cases x4 <;> cases x5 <;> cases x6 <;>
    first
    | (exfalso; revert hturns1 hturns2; decide)
    | simp [runPair, RegTask.step, RegTask.result, createUser, countEmail, hvalid1, hvalid2,
        hfresh, hfresh2, hfound1, hfound2, hfound1', hfound2', hsame, hcount,
        List.countP_append, List.countP_cons]

theorem registerUser_pair_outcomes_witness :
    ((runPair Sample.env [true, true, false, false, true, false]
        (.start Sample.alice "s1", .start Sample.alice "s2", [])).1.result,
     (runPair Sample.env [true, true, false, false, true, false]
        (.start Sample.alice "s1", .start Sample.alice "s2", [])).2.1.result,
     countEmail
      (runPair Sample.env [true, true, false, false, true, false]
        (.start Sample.alice "s1", .start Sample.alice "s2", [])).2.2
      Sample.aliceData.email) =
      if [true, true, false, false, true, false] = [true, true, true, false, false, false] then
        (some (.ok { Sample.aliceData with
                      password := Sample.env.bcrypt.hash Sample.aliceData.password 10 "s1" }),
         some (.error (mkError "User already exists")), 1)
      else if [true, true, false, false, true, false] =
          [false, false, false, true, true, true] then
        (some (.error (mkError "User already exists")),
         some (.ok { Sample.aliceData with
                      password := Sample.env.bcrypt.hash Sample.aliceData.password 10 "s2" }), 1)
      else
        (some (.ok { Sample.aliceData with
                      password := Sample.env.bcrypt.hash Sample.aliceData.password 10 "s1" }),
         some (.ok { Sample.aliceData with
                      password := Sample.env.bcrypt.hash Sample.aliceData.password 10 "s2" }), 2) :=
  registerUser_pair_outcomes Sample.env [] Sample.alice Sample.alice Sample.aliceData
    Sample.aliceData "s1" "s2" [true, true, false, false, true, false] rfl rfl rfl rfl
    (by decide) (by decide)

/-- C10 fails as stated: two calls registering `a@x.com` on the empty store, the
first doing its existence check and starting to hash, then the second doing the
same, then each inserting, both return a record, and the store ends with two
records for `a@x.com`. -/
theorem both_registrations_succeed :
    runPair Sample.env [true, true, false, false, true, false]
        (.start Sample.alice "s1", .start Sample.alice "s2", []) =
      (.settled (.ok Sample.aliceRecord), .settled (.ok Sample.aliceRecord2),
        [Sample.aliceRecord, Sample.aliceRecord2]) ∧
    countEmail [Sample.aliceRecord, Sample.aliceRecord2] "a@x.com" = 2 :=
  ⟨rfl, by decide⟩

end Gadget
